import Mathlib

/-!
# Verification of `expert_report_analysis`

A shallow embedding of the five Python modules of the repository
(`src/main.py`, `src/extract.py`, `src/ocr.py`, `src/chatgpt.py`,
`src/report.py`) and proofs of the specified properties.

External collaborators (pdfplumber, python-docx, PIL/pytesseract, openai)
are modelled as data already delivered to the program: a PDF is a list of
pages, each carrying the outcome of `page.extract_text()` and the outcomes
of the per-image byte extraction; a DOCX is a list of paragraph texts plus
a relationship table; the OCR engine and the LLM endpoint are oracle
functions supplied in the environment.  Python exceptions raised by those
collaborators appear as `Except.error` values; the Python code under
verification is translated statement by statement.
-/

namespace ExpertReport

/-- Image blobs (`bytes` in Python) are modelled as lists of byte values. -/
abbrev ImageBytes := List Nat

/-- `"sep".join(parts)` from Python: interleaves `sep` between the parts,
nothing is appended after the last part, and the empty list yields `""`. -/
def pyJoin (sep : String) : List String → String
  | [] => ""
  | [x] => x
  | x :: y :: xs => x ++ sep ++ pyJoin sep (y :: xs)

/-- The whitespace characters stripped by Python `str.strip()` /
tested by `str.isspace()`: exactly the 29 codepoints U+0009..U+000D,
U+001C..U+001F, U+0020, U+0085 (NEL), U+00A0 (NBSP), U+1680, the Zs
spaces U+2000..U+200A, U+2028, U+2029, U+202F, U+205F and U+3000. -/
def isPySpace (c : Char) : Bool :=
  (0x09 ≤ c.val && c.val ≤ 0x0d) || c == ' ' ||
  (0x1c ≤ c.val && c.val ≤ 0x1f) || c == '\x85' || c == '\xa0' ||
  c == '\u1680' || (0x2000 ≤ c.val && c.val ≤ 0x200a) ||
  c == '\u2028' || c == '\u2029' || c == '\u202f' || c == '\u205f' ||
  c == '\u3000'

/-- Python `str.strip()`: removes leading and trailing whitespace. -/
def pyStrip (s : String) : String :=
  ⟨((s.data.dropWhile isPySpace).reverse.dropWhile isPySpace).reverse⟩

/-- Python `str.lower()`; the suffixes compared in `main` are ASCII. -/
def pyLower (s : String) : String :=
  ⟨s.data.map Char.toLower⟩

/-- The characters Python `str.splitlines()` treats as line boundaries
(besides the two-character boundary `"\r\n"`, handled separately). -/
def isLineBoundary (c : Char) : Bool :=
  c == '\n' || c == '\r' || c == '\x0b' || c == '\x0c' ||
  c == '\x1c' || c == '\x1d' || c == '\x1e' || c == '\x85' ||
  c == '\u2028' || c == '\u2029'

/-- Worker for `pySplitlines`: `cur` holds the current line reversed. -/
def pySplitlinesAux : List Char → List Char → List String
  | [], cur => if cur.isEmpty then [] else [⟨cur.reverse⟩]
  | '\r' :: '\n' :: rest, cur => ⟨cur.reverse⟩ :: pySplitlinesAux rest []
  | c :: rest, cur =>
      if isLineBoundary c then ⟨cur.reverse⟩ :: pySplitlinesAux rest []
      else pySplitlinesAux rest (c :: cur)

/-- Python `str.splitlines()` (without `keepends`): splits at line
boundaries; a final unterminated segment is emitted only if non-empty,
so `""` gives `[]` and `"a\n"` gives `["a"]`. -/
def pySplitlines (s : String) : List String :=
  pySplitlinesAux s.data []

/-! ## `src/ocr.py` — `ocr_images` -/

/-- The OCR engine (PIL decode + mode conversion + `pytesseract`) for one
image blob, as an oracle: `Except.error ()` when `Image.open`, `convert`
or `image_to_string` raises, `Except.ok t` when recognition returns `t`. -/
abbrev Recognizer := ImageBytes → Except Unit String

/-- The `for img_bytes in images:` loop of `ocr_images`: `results` is the
accumulator list.  A raising image is skipped by the bare `except`; a
successful recognition is appended only when the text is truthy
(non-empty), mirroring `if text: results.append(text)`. -/
def ocrLoop (recognize : Recognizer) : List ImageBytes → List String → List String
  | [], results => results
  | b :: rest, results =>
      match recognize b with
      | .error _ => ocrLoop recognize rest results
      | .ok t => ocrLoop recognize rest (if t = "" then results else results ++ [t])

/-- `ocr_images(images, languages)`: runs the loop and returns
`"\n".join(results)`.  The `languages` argument is passed through to the
engine unchanged, hence folded into the `recognize` oracle. -/
def ocr_images (recognize : Recognizer) (images : List ImageBytes) : String :=
  pyJoin "\n" (ocrLoop recognize images [])

/-! ## `src/extract.py` — `extract_from_pdf`, `extract_from_docx` -/

/-- One pdfplumber page.  `text` is the outcome of `page.extract_text()`:
`Except.error ()` when it raises, `Except.ok none` when it returns `None`,
`Except.ok (some t)` when it returns the string `t`.  `images` lists, per
entry of `page.images`, the outcome of the object-id resolution plus
`page.extract_image`: `some data` when bytes were obtained, `none` when
an exception was raised or the `"image"` value was not a bytes object. -/
structure PdfPage where
  text : Except Unit (Option String)
  images : List (Option ImageBytes)

/-- A pdfplumber document: its pages in document order. -/
structure PdfDoc where
  pages : List PdfPage

/-- `page.extract_text() or ""` under the surrounding `try`/`except`:
a raising page and a `None` result both contribute `""`. -/
def pageTextOf : Except Unit (Option String) → String
  | .error _ => ""
  | .ok none => ""
  | .ok (some t) => t

/-- The inner `for img in page.images:` loop: append the bytes when the
extraction produced some, otherwise `continue`. -/
def pageImagesLoop : List (Option ImageBytes) → List ImageBytes → List ImageBytes
  | [], acc => acc
  | none :: rest, acc => pageImagesLoop rest acc
  | some b :: rest, acc => pageImagesLoop rest (acc ++ [b])

/-- The `for page in pdf.pages:` loop, threading both accumulators. -/
def pdfLoop : List PdfPage → List String → List ImageBytes → List String × List ImageBytes
  | [], texts, images => (texts, images)
  | p :: rest, texts, images =>
      pdfLoop rest (texts ++ [pageTextOf p.text]) (pageImagesLoop p.images images)

/-- `extract_from_pdf(pdf_path)`: iterates the pages collecting per-page
texts and image bytes, then returns `("\n".join(texts), images)`. -/
def extract_from_pdf (pdf : PdfDoc) : String × List ImageBytes :=
  let r := pdfLoop pdf.pages [] []
  (pyJoin "\n" r.1, r.2)

/-- One entry of `doc.part._rels.values()`: `contentType` is
`getattr(rel.target_part, "content_type", "")` and `blob` the outcome of
reading `rel.target_part.blob` (`Except.error ()` when the access raises,
caught by the `except` that continues with the next relationship). -/
structure DocxRel where
  contentType : String
  blob : Except Unit ImageBytes

/-- A python-docx document: paragraph texts in document order plus the
relationship table of the main part. -/
structure DocxDoc where
  paragraphs : List String
  rels : List DocxRel

/-- The `for paragraph in doc.paragraphs:` loop collecting texts. -/
def docxTextLoop : List String → List String → List String
  | [], acc => acc
  | t :: rest, acc => docxTextLoop rest (acc ++ [t])

/-- The `for rel in doc.part._rels.values():` loop: a relationship whose
content type starts with `"image"` contributes its blob; any raising
access, and any non-image relationship, contributes nothing. -/
def docxRelsLoop : List DocxRel → List ImageBytes → List ImageBytes
  | [], acc => acc
  | r :: rest, acc =>
      match (if r.contentType.startsWith "image" then r.blob.toOption else none) with
      | some b => docxRelsLoop rest (acc ++ [b])
      | none => docxRelsLoop rest acc

/-- `extract_from_docx(docx_path)`: paragraph texts joined with `"\n"`,
plus the image blobs found in the relationship table. -/
def extract_from_docx (d : DocxDoc) : String × List ImageBytes :=
  (pyJoin "\n" (docxTextLoop d.paragraphs []), docxRelsLoop d.rels [])

/-! ## `src/chatgpt.py` — `call_chatgpt` -/

/-- One chat message, `{"role": ..., "content": ...}`. -/
structure ChatMessage where
  role : String
  content : String
deriving DecidableEq

/-- The request `openai.ChatCompletion.create` is handed when it is
reached: the two-message list built by `call_chatgpt`. -/
structure ChatRequest where
  messages : List ChatMessage
deriving DecidableEq

/-- The fatal errors the program raises (ImportError guards on the
optional dependencies are out of scope: all capabilities are present in
the modelled runtime). -/
inductive MainErr where
  /-- `raise SystemExit(f"Неподдерживаемый формат входного файла: {suffix}")`
  in `main`: the message names the (lowercased) unsupported suffix, and
  `SystemExit` with a string argument terminates the process with exit
  status 1 (non-zero). -/
  | unsupportedSuffix (suffix : String)
  /-- `raise RuntimeError("Переменная окружения OPENAI_API_KEY не задана.")`
  in `call_chatgpt`. -/
  | missingApiKey
deriving DecidableEq

/-- Python truthiness test `not api_key` on the result of
`os.environ.get("OPENAI_API_KEY")`: true when the variable is unset
(`None`) and when it is set to the empty string. -/
def apiKeyFalsy : Option String → Bool
  | none => true
  | some k => k = ""

/-- `call_chatgpt(prompt, content, model, temperature)`.  The key check
happens before anything is sent; only past it is the two-message request
built and handed to the endpoint.  The endpoint itself is the oracle
`respond`, mapping the request to the first choice's message content. -/
def call_chatgpt (apiKey : Option String) (respond : ChatRequest → String)
    (prompt content : String) : Except MainErr (ChatRequest × String) :=
  if apiKeyFalsy apiKey then
    .error .missingApiKey
  else
    let req : ChatRequest :=
      ⟨[⟨"system", prompt⟩, ⟨"user", content⟩]⟩
    .ok (req, respond req)

/-! ## `src/report.py` — `create_report` -/

/-- The document `create_report` builds: the level-1 heading followed by
the body paragraphs, in order. -/
structure ReportDoc where
  heading : String
  paragraphs : List String
deriving DecidableEq

/-- The `for paragraph in content.splitlines():` loop of `create_report`:
every line, the empty ones included, becomes one `add_paragraph` call. -/
def reportLoop : List String → List String → List String
  | [], acc => acc
  | line :: rest, acc => reportLoop rest (acc ++ [line])

/-- The default value of the `title` parameter of `create_report`. -/
def defaultTitle : String := "Сводный отчёт о недостатках"

/-- `create_report(content, output_path, title)`: a fresh document, a
heading with the given title (defaulting to `defaultTitle`), then one
paragraph per line of `content`.  (The directory creation and `doc.save`
file write are the effect recorded by `Effect.reportWritten` in `main`
below, which calls `create_report` with the default title.) -/
def create_report (content : String) (title : String) : ReportDoc :=
  ⟨title, reportLoop (pySplitlines content) []⟩

/-! ## `src/main.py` — `main` -/

/-- The observable side effects of one run, in order.  Loading the prompt
text (`load_prompt`) happens before any of these but is a read of a
configuration input, modelled as the environment field `promptText`. -/
inductive Effect where
  /-- The input file was opened and extracted (pdfplumber or python-docx). -/
  | extractedInput
  /-- `ocr_images` ran over the extracted image list. -/
  | ocrPerformed
  /-- `call_chatgpt` was invoked with this combined content string. -/
  | responderInvoked (content : String)
  /-- `openai.ChatCompletion.create` was actually reached with this request. -/
  | requestSent (req : ChatRequest)
  /-- `create_report` wrote the output DOCX file with this document. -/
  | reportWritten (doc : ReportDoc)
deriving DecidableEq

/-- Everything a run reads from the outside world. -/
structure Env where
  /-- `input_path.suffix` (before `.lower()`). -/
  inputSuffix : String
  /-- The document at the input path, read as a PDF. -/
  pdfDoc : PdfDoc
  /-- The document at the input path, read as a DOCX. -/
  docxDoc : DocxDoc
  /-- The OCR engine with `args.ocr_lang` already applied. -/
  recognize : Recognizer
  /-- `os.environ.get("OPENAI_API_KEY")`. -/
  apiKey : Option String
  /-- The LLM endpoint. -/
  respond : ChatRequest → String
  /-- The prompt text resolved by `load_prompt`. -/
  promptText : String

/-- The combined-text step of `main`:
`combined_text = text`, then `combined_text = combined_text + "\n" + ocr_text`
only when `ocr_text.strip()` is truthy. -/
def combineText (text ocrText : String) : String :=
  if pyStrip ocrText = "" then text else text ++ "\n" ++ ocrText

/-- The tail of `main` after extraction succeeded: OCR, combination,
the Responder, and the Reporter. -/
def runPipeline (env : Env) (extracted : String × List ImageBytes) :
    List Effect × Except MainErr Unit :=
  let ocrText := ocr_images env.recognize extracted.2
  let combined := combineText extracted.1 ocrText
  match call_chatgpt env.apiKey env.respond env.promptText combined with
  | .error e =>
      ([.extractedInput, .ocrPerformed, .responderInvoked combined], .error e)
  | .ok (req, responseText) =>
      ([.extractedInput, .ocrPerformed, .responderInvoked combined,
        .requestSent req, .reportWritten (create_report responseText defaultTitle)], .ok ())

/-- `main`: suffix dispatch (`suffix = input_path.suffix.lower()`), then
the linear pipeline.  An unsupported suffix raises `SystemExit` before
any extraction, OCR, LLM or report work: the effect list is empty. -/
def main (env : Env) : List Effect × Except MainErr Unit :=
  let suffix := pyLower env.inputSuffix
  if suffix = ".pdf" then
    runPipeline env (extract_from_pdf env.pdfDoc)
  else if suffix = ".docx" then
    runPipeline env (extract_from_docx env.docxDoc)
  else
    ([], .error (.unsupportedSuffix suffix))

/-! ## Loop characterisations -/

/-- The paragraph-collecting loop of `extract_from_docx` appends the
paragraph texts, in order, to the accumulator. -/
theorem docxTextLoop_eq (l acc : List String) : docxTextLoop l acc = acc ++ l := by
  induction l generalizing acc with
  | nil => simp [docxTextLoop]
  | cons t rest ih => simp [docxTextLoop, ih]

/-- The paragraph-adding loop of `create_report` appends the lines, in
order, to the accumulator. -/
theorem reportLoop_eq (l acc : List String) : reportLoop l acc = acc ++ l := by
  induction l generalizing acc with
  | nil => simp [reportLoop]
  | cons t rest ih => simp [reportLoop, ih]

/-- The per-page image loop of `extract_from_pdf` appends exactly the
successfully extracted blobs, in order. -/
theorem pageImagesLoop_eq (l : List (Option ImageBytes)) (acc : List ImageBytes) :
    pageImagesLoop l acc = acc ++ l.filterMap id := by
  induction l generalizing acc with
  | nil => simp [pageImagesLoop]
  | cons o rest ih => cases o <;> simp [pageImagesLoop, ih]

/-- The text component accumulated by the page loop of `extract_from_pdf`
is the per-page text of every page, in page order. -/
theorem pdfLoop_fst (pages : List PdfPage) (texts : List String) (images : List ImageBytes) :
    (pdfLoop pages texts images).1 = texts ++ pages.map (fun p => pageTextOf p.text) := by
  induction pages generalizing texts images with
  | nil => simp [pdfLoop]
  | cons p rest ih => simp [pdfLoop, ih]

/-- The OCR loop appends, in input order, exactly the non-empty
recognition results of the non-raising images. -/
theorem ocrLoop_eq (recognize : Recognizer) (images : List ImageBytes) (acc : List String) :
    ocrLoop recognize images acc =
      acc ++ images.filterMap (fun b =>
        match recognize b with
        | .error _ => none
        | .ok t => if t = "" then none else some t) := by
  induction images generalizing acc with
  | nil => simp [ocrLoop]
  | cons b rest ih =>
      simp only [ocrLoop, List.filterMap_cons]
      cases h : recognize b with
      | error e => simp [ih]
      | ok t =>
          by_cases ht : t = "" <;> simp [ht, ih]

/-- `pyStrip` returns the empty string exactly when every character of
the input is whitespace (in particular on the empty string). -/
theorem pyStrip_eq_empty_iff (s : String) :
    pyStrip s = "" ↔ ∀ c ∈ s.data, isPySpace c = true := by
  unfold pyStrip
  constructor
  · intro h c hc
    have hdata : (((s.data.dropWhile isPySpace).reverse.dropWhile isPySpace).reverse)
        = ([] : List Char) := congrArg String.data h
    have hrev : (s.data.dropWhile isPySpace).reverse.dropWhile isPySpace = [] := by
      simpa using hdata
    have hall : ∀ x ∈ (s.data.dropWhile isPySpace).reverse, isPySpace x :=
      List.dropWhile_eq_nil_iff.mp hrev
    have hall' : ∀ x ∈ s.data.dropWhile isPySpace, isPySpace x := by
      intro x hx
      exact hall x (List.mem_reverse.mpr hx)
    rcases List.mem_append.mp
        ((List.takeWhile_append_dropWhile (p := isPySpace) (l := s.data)) ▸ hc) with h1 | h2
    · exact List.mem_takeWhile_imp h1
    · exact hall' c h2
  · intro h
    have h1 : s.data.dropWhile isPySpace = [] :=
      List.dropWhile_eq_nil_iff.mpr h
    simp [h1]

/-! ## Concrete runs used as witnesses -/

/-- An OCR oracle on which every image raises. -/
def recFail : Recognizer := fun _ => Except.error ()

/-- The two-page PDF of the end-to-end scenario: page texts `"Hello"` and
`"World"`, one embedded image (successfully extracted as bytes). -/
def pdfHelloWorld : PdfDoc :=
  ⟨[⟨.ok (some "Hello"), [some [0]]⟩, ⟨.ok (some "World"), []⟩]⟩

/-- The environment of the end-to-end scenario: a `.pdf` input whose one
embedded image fails OCR, with a configured API key. -/
def envHelloWorld : Env :=
  { inputSuffix := ".pdf", pdfDoc := pdfHelloWorld, docxDoc := ⟨[], []⟩,
    recognize := recFail, apiKey := some "key",
    respond := fun _ => "response", promptText := "prompt" }

/-- An environment whose input path ends in `.txt`. -/
def envTxt : Env :=
  { inputSuffix := ".txt", pdfDoc := ⟨[⟨.ok (some "T"), []⟩]⟩,
    docxDoc := ⟨["T"], []⟩, recognize := recFail, apiKey := some "key",
    respond := fun _ => "response", promptText := "prompt" }

/-- An environment with a supported input but no `OPENAI_API_KEY`. -/
def envNoKey : Env :=
  { inputSuffix := ".pdf", pdfDoc := ⟨[⟨.ok (some "T"), []⟩]⟩,
    docxDoc := ⟨["T"], []⟩, recognize := recFail, apiKey := none,
    respond := fun _ => "response", promptText := "prompt" }

/-- A DOCX with two paragraphs and no embedded images. -/
def docxPlain : DocxDoc := ⟨["a", "b"], []⟩

/-- A DOCX with the same two paragraphs, one image relationship that
yields bytes, one whose blob access raises, and one non-image
relationship. -/
def docxWithImages : DocxDoc :=
  ⟨["a", "b"],
   [⟨"image/png", .ok [1, 2]⟩, ⟨"image/jpeg", .error ()⟩,
    ⟨"application/xml", .ok [3]⟩]⟩

/-- The combined content strings handed to the Responder, extracted from
an effect list. -/
def responderContents (effects : List Effect) : List String :=
  effects.filterMap fun e =>
    match e with
    | .responderInvoked c => some c
    | _ => none

/-- True of an effect that is neither a report write nor a request
actually sent to the LLM endpoint. -/
def Effect.notWriteOrSend : Effect → Bool
  | .reportWritten _ => false
  | .requestSent _ => false
  | _ => true

/-! ## The claims -/

/-- C1: the combined text equals the native text alone when the OCR text
is empty or all-whitespace, and equals the native text, a newline, and
the OCR text when the OCR text has any non-whitespace character; the
native text is always included unchanged. -/
theorem combine_native_and_ocr (t o : String) :
    ((∀ c ∈ o.data, isPySpace c = true) → combineText t o = t) ∧
    ((∃ c ∈ o.data, ¬ isPySpace c = true) → combineText t o = t ++ "\n" ++ o) := by
  constructor
  · intro h
    simp [combineText, (pyStrip_eq_empty_iff o).mpr h]
  · rintro ⟨c, hc, hns⟩
    have hne : ¬ pyStrip o = "" := fun he => hns ((pyStrip_eq_empty_iff o).mp he c hc)
    simp [combineText, hne]

/-- C1 witness: `combineText "A" " "` keeps only the native text, and
`combineText "A" "B"` appends the OCR text after a newline. -/
theorem combine_native_and_ocr_witness :
    combineText "A" " " = "A" ∧ combineText "A" "B" = "A" ++ "\n" ++ "B" :=
  ⟨(combine_native_and_ocr "A" " ").1 (by decide),
   (combine_native_and_ocr "A" "B").2 ⟨'B', by decide, by decide⟩⟩

/-- C2: in the end-to-end scenario — a two-page PDF with page texts
`"Hello"` and `"World"` and one embedded image whose OCR fails — the one
content string the orchestrator passes to the Responder is
`"Hello\nWorld"`: the failed OCR contributes nothing and no separator is
appended. -/
theorem endToEnd_two_page_pdf :
    responderContents (main envHelloWorld).1 = ["Hello\nWorld"] := by
  decide

/-- C3: for every PDF, the text component of `extract_from_pdf` is the
newline-join of the per-page texts, one per page in page order, and a
page whose `extract_text()` raises contributes the empty string (the
loop continues with the remaining pages). -/
theorem extract_from_pdf_text_spec (pdf : PdfDoc) :
    (extract_from_pdf pdf).1 = pyJoin "\n" (pdf.pages.map fun p => pageTextOf p.text) ∧
    (pdf.pages.map fun p => pageTextOf p.text).length = pdf.pages.length ∧
    pageTextOf (Except.error ()) = "" := by
  refine ⟨?_, List.length_map _ _, rfl⟩
  simp [extract_from_pdf, pdfLoop_fst]

/-- C4: for every DOCX, the text component of `extract_from_docx` is the
newline-join of the paragraph texts in document order, and any two
documents with the same paragraphs — whatever their embedded images or
failing image relationships — yield the same text. -/
theorem extract_from_docx_text_spec (d d' : DocxDoc) (h : d.paragraphs = d'.paragraphs) :
    (extract_from_docx d).1 = pyJoin "\n" d.paragraphs ∧
    (extract_from_docx d).1 = (extract_from_docx d').1 := by
  constructor
  · simp [extract_from_docx, docxTextLoop_eq]
  · simp [extract_from_docx, docxTextLoop_eq, h]

/-- C4 witness: a DOCX without images and one with an extracted image,
a raising image relationship and a non-image relationship, sharing the
paragraphs `["a", "b"]`, both extract the text `"a\nb"`. -/
theorem extract_from_docx_text_spec_witness :
    docxPlain.paragraphs = docxWithImages.paragraphs ∧
    (extract_from_docx docxPlain).1 = pyJoin "\n" docxPlain.paragraphs ∧
    (extract_from_docx docxPlain).1 = (extract_from_docx docxWithImages).1 :=
  ⟨rfl, (extract_from_docx_text_spec docxPlain docxWithImages rfl).1,
   (extract_from_docx_text_spec docxPlain docxWithImages rfl).2⟩

/-- C5: `ocr_images` returns the empty string on the empty image list,
and returns the empty string — with every per-image failure absorbed,
no exception escaping — when every image raises. -/
theorem ocr_images_empty_or_all_fail (recognize : Recognizer) (images : List ImageBytes)
    (h : ∀ b ∈ images, recognize b = Except.error ()) :
    ocr_images recognize [] = "" ∧ ocr_images recognize images = "" := by
  constructor
  · rfl
  · have hnil : images.filterMap (fun b =>
        match recognize b with
        | .error _ => none
        | .ok t => if t = "" then none else some t) = [] := by
      rw [List.filterMap_eq_nil_iff]
      intro b hb
      rw [h b hb]
    simp [ocr_images, ocrLoop_eq, hnil, pyJoin]

/-- C5 witness: on the oracle that always raises, both the empty list
and a two-image list produce the empty string. -/
theorem ocr_images_empty_or_all_fail_witness :
    (∀ b ∈ ([[0], [1, 2]] : List ImageBytes), recFail b = Except.error ()) ∧
    ocr_images recFail [] = "" ∧ ocr_images recFail [[0], [1, 2]] = "" :=
  ⟨fun _ _ => rfl,
   (ocr_images_empty_or_all_fail recFail [[0], [1, 2]] (fun _ _ => rfl)).1,
   (ocr_images_empty_or_all_fail recFail [[0], [1, 2]] (fun _ _ => rfl)).2⟩

/-- C6: for every image list, `ocr_images` returns the newline-join, in
input order, of exactly the non-empty recognition results; raising
images and images recognised as the empty string are omitted. -/
theorem ocr_images_joins_nonempty (recognize : Recognizer) (images : List ImageBytes) :
    ocr_images recognize images =
      pyJoin "\n" (images.filterMap fun b =>
        match recognize b with
        | .error _ => none
        | .ok t => if t = "" then none else some t) := by
  simp [ocr_images, ocrLoop_eq]

/-- C7: on any input whose lowercased suffix is neither `.pdf` nor
`.docx`, `main` stops with the fatal `unsupportedSuffix` error naming
that suffix (a `SystemExit`, exit status 1) and performs no effect at
all: no extraction, no OCR, no LLM call, no report write. -/
theorem main_unsupported_suffix (env : Env)
    (h1 : pyLower env.inputSuffix ≠ ".pdf") (h2 : pyLower env.inputSuffix ≠ ".docx") :
    main env = ([], .error (.unsupportedSuffix (pyLower env.inputSuffix))) := by
  simp [main, h1, h2]

/-- C7 witness: the `.txt` input is rejected with an empty effect list
and the error names `.txt`. -/
theorem main_unsupported_suffix_witness :
    pyLower envTxt.inputSuffix ≠ ".pdf" ∧ pyLower envTxt.inputSuffix ≠ ".docx" ∧
    main envTxt = ([], .error (.unsupportedSuffix (pyLower envTxt.inputSuffix))) :=
  ⟨by decide, by decide, main_unsupported_suffix envTxt (by decide) (by decide)⟩

/-- C8: with `OPENAI_API_KEY` unset, `call_chatgpt` fails with the
`missingApiKey` RuntimeError before any request is built or sent, and no
run of `main` in such an environment sends a request or writes the
output report (nor does it finish successfully). -/
theorem missing_api_key_no_output (env : Env) (hk : env.apiKey = none)
    (prompt content : String) :
    call_chatgpt env.apiKey env.respond prompt content = .error .missingApiKey ∧
    ((main env).1.all Effect.notWriteOrSend) = true ∧
    (main env).2 ≠ .ok () := by
  refine ⟨by rw [hk]; rfl, ?_, ?_⟩ <;>
  · by_cases h1 : pyLower env.inputSuffix = ".pdf" <;>
      by_cases h2 : pyLower env.inputSuffix = ".docx" <;>
      simp [main, runPipeline, call_chatgpt, apiKeyFalsy, hk, h1, h2,
        Effect.notWriteOrSend]

/-- C8 witness: in the concrete keyless environment `envNoKey`, the
Responder fails, no request or report effect occurs, and the run does
not succeed. -/
theorem missing_api_key_no_output_witness :
    call_chatgpt envNoKey.apiKey envNoKey.respond "p" "c" = .error .missingApiKey ∧
    ((main envNoKey).1.all Effect.notWriteOrSend) = true ∧
    (main envNoKey).2 ≠ .ok () :=
  missing_api_key_no_output envNoKey rfl "p" "c"

/-- C9: `create_report` produces the given heading followed by one
paragraph per line of the content (Python `splitlines` boundaries, empty
lines kept as empty paragraphs); for the content `"line1\n\nline3"` the
body is exactly three paragraphs, the second empty, in order. -/
theorem create_report_structure (content title : String) :
    (create_report content title).heading = title ∧
    (create_report content title).paragraphs = pySplitlines content ∧
    (create_report "line1\n\nline3" defaultTitle).paragraphs = ["line1", "", "line3"] := by
  refine ⟨rfl, ?_, by decide⟩
  simp [create_report, reportLoop_eq]

/-- C10: `call_chatgpt` treats an empty-string `OPENAI_API_KEY` exactly
like an absent one: the falsiness check rejects both with the same
`missingApiKey` RuntimeError, and no request is sent. -/
theorem empty_api_key_like_missing (respond : ChatRequest → String) (prompt content : String) :
    call_chatgpt (some "") respond prompt content = .error .missingApiKey ∧
    call_chatgpt (some "") respond prompt content = call_chatgpt none respond prompt content :=
  ⟨rfl, rfl⟩

end ExpertReport
